import Mathlib

/-!
Verification of the neopixel_color_finder firmware core (src/code.py).

The file shallowly embeds the pure content of the firmware loop:
the analog knob sampler `get_knob`, the rainbow helper `wheel`,
the startup-animation exit logic, the fast/slow tick scheduling,
and the slow-tick state update of the main loop (knob display,
long-press slot saves, short-press handling), together with event
traces of every pixel-array write/show the program issues.
-/

namespace NeopixelColorFinder

/-- Embedded from the `simpleio` library the source imports
(`simpleio.map_range`): linear interpolation of `x` from the interval
`[in_min, in_max]` onto `[out_min, out_max]`, with the result clamped
to the output interval.  Real arithmetic is modelled exactly over `ℚ`. -/
def map_range (x in_min in_max out_min out_max : ℚ) : ℚ :=
  let mapped := (x - in_min) * (out_max - out_min) / (in_max - in_min) + out_min
  if out_min ≤ out_max then max (min mapped out_max) out_min
  else min (max mapped out_max) out_min

/-- Python `int()` applied to a rational: truncation toward zero. -/
def pyInt (q : ℚ) : ℤ :=
  if 0 ≤ q then ⌊q⌋ else ⌈q⌉

/-- `get_knob(pin)` from src/code.py lines 118-125: each of the raw ADC
readings is range-mapped from `[1000, 64000]` onto `[0, 255]`, the mapped
values are summed, the sum is divided by `num_readings = 8`, and the
average is truncated to an integer.  The raw readings delivered by
`pin.value` are modelled as the integer list `readings`. -/
def get_knob (readings : List ℤ) : ℤ :=
  let avg := (readings.map (fun v : ℤ => map_range (v : ℚ) 1000 64000 0 255)).sum / 8
  pyInt avg

/-- `wheel(pos)` from src/code.py lines 127-138: color-wheel position to
RGB triple; out-of-range positions yield black. -/
def wheel (pos : ℤ) : ℤ × ℤ × ℤ :=
  if pos < 0 ∨ pos > 255 then (0, 0, 0)
  else if pos < 85 then (255 - pos * 3, pos * 3, 0)
  else if pos < 170 then (0, 255 - (pos - 85) * 3, (pos - 85) * 3)
  else ((pos - 170) * 3, 0, 255 - (pos - 170) * 3)

/-- `NUMPIXELS` from src/code.py line 142. -/
def NUMPIXELS : ℕ := 7

/-- An observable interaction with the neopixel capability: a per-index
color write (`neopixels[i] = c`) or a present call (`neopixels.show()`). -/
inductive PixelEvent where
  | write (idx : ℕ) (color : ℤ × ℤ × ℤ)
  | show
deriving DecidableEq

/-- `pixel_index = (i * 256 // NUMPIXELS) + j*10` masked with `& 255`,
from src/code.py line 189. -/
def startup_pixel_index (i j : ℕ) : ℕ :=
  ((i * 256 / NUMPIXELS) + j * 10) &&& 255

/-- The pixel events issued by one frame (loop index `j`) of the startup
animation, src/code.py lines 187-191: a write for each `i < NUMPIXELS`,
then a single `show`. -/
def startupFrameTrace (j : ℕ) : List PixelEvent :=
  ((List.range NUMPIXELS).map
    (fun i => PixelEvent.write i (wheel (startup_pixel_index i j)))) ++ [PixelEvent.show]

/-- The pixel events issued by the startup-exit blanking loop,
src/code.py lines 203-205.  In the source, `neopixels.show()` is inside
the `for` body, so each write is followed by its own `show`. -/
def blankingTrace : List PixelEvent :=
  (List.range NUMPIXELS).flatMap
    (fun i => [PixelEvent.write i (0, 0, 0), PixelEvent.show])

/-- The pixel events of the live-color pass of a slow tick,
src/code.py lines 372-375: writes to indices 0, 1 and 4 with the knob
color, then one `show`. -/
def liveColorTrace (r g b : ℕ) : List PixelEvent :=
  [PixelEvent.write 0 ((r : ℤ), (g : ℤ), (b : ℤ)),
   PixelEvent.write 1 ((r : ℤ), (g : ℤ), (b : ℤ)),
   PixelEvent.write 4 ((r : ℤ), (g : ℤ), (b : ℤ)),
   PixelEvent.show]

/-- A trace is batched when it contains exactly one `show` and that
`show` is its final event, i.e. all per-index writes come first. -/
def batchedTrace (t : List PixelEvent) : Prop :=
  t.count PixelEvent.show = 1 ∧ t.getLast? = some PixelEvent.show

/-- A pixel event stays inside the declared strip length `NUMPIXELS`. -/
def eventInBounds : PixelEvent → Prop
  | PixelEvent.write i _ => i < NUMPIXELS
  | PixelEvent.show => True

/-- The motion test of the startup animation, src/code.py line 196:
some knob's fresh sample differs from its previous sample by more
than 5 units. -/
def knobMoved (prev cur : ℤ × ℤ × ℤ) : Bool :=
  (5 < (cur.1 - prev.1).natAbs) || (5 < (cur.2.1 - prev.2.1).natAbs) ||
    (5 < (cur.2.2 - prev.2.2).natAbs)

/-- Fuel-indexed run of the startup animation loop, src/code.py lines
187-200.  `samples n` is the `n`-th triple of knob samples taken by the
program (`samples 0` is the pre-loop read at lines 184-186, and the frame
with loop counter `n` reads `samples (n+1)` after showing its colors).
`frames` counts frames already executed; the loop breaks out of frame
`frames` when the fresh sample moved relative to the previous one, and
otherwise runs until the fuel (the `range(5000)` bound) is exhausted.
The result is the number of frames executed. -/
def startupFramesAux (samples : ℕ → ℤ × ℤ × ℤ) : ℕ → ℕ → ℕ
  | 0, frames => frames
  | fuel + 1, frames =>
    if knobMoved (samples frames) (samples (frames + 1)) then frames + 1
    else startupFramesAux samples fuel (frames + 1)

/-- Number of frames executed by the startup animation for a given
stream of knob samples. -/
def startupFrames (samples : ℕ → ℤ × ℤ × ℤ) : ℕ :=
  startupFramesAux samples 5000 0

/-- Python `hex(n)` for a non-negative integer: `0x` followed by the
lowercase base-16 digits. -/
def pyHex (n : ℕ) : String :=
  "0x" ++ (Nat.toDigits 16 n).asString

/-- The mutable program state touched by the main loop of src/code.py.
Channel values are `ℕ`: every knob value the loop feeds in comes from
`get_knob`, whose result is a non-negative integer.  `keep_this_rgb` is
initialised to the scalar `0` in the source (line 285) but is assigned a
triple on every `show_knob_value` slow tick before it is ever read, so it
is modelled as a triple.  Display labels are modelled by their text
(their x-recentering uses the rendered glyph width, owned by the display
capability).  `pixels` is the neopixel buffer (`auto_write=False`),
indexed by `ℕ` exactly as the source indexes `neopixels`. -/
structure LoopState where
  mode : String
  mem1_rgb : ℕ × ℕ × ℕ
  mem2_rgb : ℕ × ℕ × ℕ
  mem3_rgb : ℕ × ℕ × ℕ
  mem4_rgb : ℕ × ℕ × ℕ
  keep_this_rgb : ℕ × ℕ × ℕ
  btn1_status : String
  btn2_status : String
  btn3_status : String
  btn4_status : String
  disp_r_text : String
  disp_g_text : String
  disp_b_text : String
  disp_h_text : String
  big_circle_fill : ℕ
  circle_mem_1_fill : ℕ
  circle_mem_2_fill : ℕ
  circle_mem_3_fill : ℕ
  circle_mem_4_fill : ℕ
  pixels : ℕ → ℕ × ℕ × ℕ

/-- The state right after setup, src/code.py lines 279-296 together with
the circle fills created at lines 213-223 (`D_BLACK`) and the blanked
pixel buffer left by the startup-exit loop. -/
def initState : LoopState where
  mode := "show_knob_value"
  mem1_rgb := (0, 0, 0)
  mem2_rgb := (0, 0, 0)
  mem3_rgb := (0, 0, 0)
  mem4_rgb := (0, 0, 0)
  keep_this_rgb := (0, 0, 0)
  btn1_status := "waiting"
  btn2_status := "waiting"
  btn3_status := "waiting"
  btn4_status := "waiting"
  disp_r_text := ""
  disp_g_text := ""
  disp_b_text := ""
  disp_h_text := ""
  big_circle_fill := 0
  circle_mem_1_fill := 0
  circle_mem_2_fill := 0
  circle_mem_3_fill := 0
  circle_mem_4_fill := 0
  pixels := fun _ => (0, 0, 0)

/-- The press-duration classification performed in each `rose` handler,
src/code.py lines 320-350: `downtime < 0.75` gives `"short"`, otherwise
`"long"`. -/
def classify_downtime (downtime : ℚ) : String :=
  if downtime < 0.75 then "short" else "long"

/-- Latched classification of button `k` (1-based buttons 1..4 are
`k = 0..3`). -/
def btnStatusOf : Fin 4 → LoopState → String
  | 0, s => s.btn1_status
  | 1, s => s.btn2_status
  | 2, s => s.btn3_status
  | 3, s => s.btn4_status

/-- Overwrite the latched classification of button `k`. -/
def setBtnStatus : Fin 4 → String → LoopState → LoopState
  | 0, st, s => { s with btn1_status := st }
  | 1, st, s => { s with btn2_status := st }
  | 2, st, s => { s with btn3_status := st }
  | 3, st, s => { s with btn4_status := st }

/-- Memory slot of button `k` (`mem1_rgb` .. `mem4_rgb`). -/
def memOf : Fin 4 → LoopState → ℕ × ℕ × ℕ
  | 0, s => s.mem1_rgb
  | 1, s => s.mem2_rgb
  | 2, s => s.mem3_rgb
  | 3, s => s.mem4_rgb

/-- Indicator circle fill of slot `k`. -/
def circleFillOf : Fin 4 → LoopState → ℕ
  | 0, s => s.circle_mem_1_fill
  | 1, s => s.circle_mem_2_fill
  | 2, s => s.circle_mem_3_fill
  | 3, s => s.circle_mem_4_fill

/-- The dedicated neopixel of each slot: 6 (upper left), 5 (lower left),
2 (upper right), 3 (lower right), src/code.py lines 382, 388, 394, 400. -/
def slotPixel : Fin 4 → ℕ
  | 0 => 6
  | 1 => 5
  | 2 => 2
  | 3 => 3

/-- The `rose` handler of button `k` at time `now` for a press that
fell at time `start`: latch the duration classification
(src/code.py lines 320-350; the four handlers are syntactically
identical up to the button index). -/
def button_rose_update (k : Fin 4) (now start : ℚ) (s : LoopState) : LoopState :=
  setBtnStatus k (classify_downtime (now - start)) s

/-- The knob-display block of a `show_knob_value` slow tick, src/code.py
lines 365-377: pack the color, remember it in `keep_this_rgb`, update the
four text fields, write pixels 0, 1 and 4, and fill the big circle. -/
def liveUpdate (R_knob G_knob B_knob : ℕ) (rgb_value_i : ℕ) (s : LoopState) : LoopState :=
  { s with
    keep_this_rgb := (R_knob, G_knob, B_knob)
    disp_r_text := toString R_knob
    disp_g_text := toString G_knob
    disp_b_text := toString B_knob
    disp_h_text := pyHex rgb_value_i
    pixels :=
      Function.update
        (Function.update
          (Function.update s.pixels 0 (R_knob, G_knob, B_knob))
          1 (R_knob, G_knob, B_knob))
        4 (R_knob, G_knob, B_knob)
    big_circle_fill := rgb_value_i }

/-- Long-press branch for button 1, src/code.py lines 379-383. -/
def applyLong1 (R_knob G_knob B_knob : ℕ) (rgb_value_i : ℕ) (s : LoopState) : LoopState :=
  if s.btn1_status = "long" then
    { s with
      mem1_rgb := s.keep_this_rgb
      circle_mem_1_fill := rgb_value_i
      pixels := Function.update s.pixels 6 (R_knob, G_knob, B_knob)
      btn1_status := "waiting" }
  else s

/-- Long-press branch for button 2, src/code.py lines 385-389. -/
def applyLong2 (R_knob G_knob B_knob : ℕ) (rgb_value_i : ℕ) (s : LoopState) : LoopState :=
  if s.btn2_status = "long" then
    { s with
      mem2_rgb := s.keep_this_rgb
      circle_mem_2_fill := rgb_value_i
      pixels := Function.update s.pixels 5 (R_knob, G_knob, B_knob)
      btn2_status := "waiting" }
  else s

/-- Long-press branch for button 3, src/code.py lines 391-395. -/
def applyLong3 (R_knob G_knob B_knob : ℕ) (rgb_value_i : ℕ) (s : LoopState) : LoopState :=
  if s.btn3_status = "long" then
    { s with
      mem3_rgb := s.keep_this_rgb
      circle_mem_3_fill := rgb_value_i
      pixels := Function.update s.pixels 2 (R_knob, G_knob, B_knob)
      btn3_status := "waiting" }
  else s

/-- Long-press branch for button 4, src/code.py lines 397-401. -/
def applyLong4 (R_knob G_knob B_knob : ℕ) (rgb_value_i : ℕ) (s : LoopState) : LoopState :=
  if s.btn4_status = "long" then
    { s with
      mem4_rgb := s.keep_this_rgb
      circle_mem_4_fill := rgb_value_i
      pixels := Function.update s.pixels 3 (R_knob, G_knob, B_knob)
      btn4_status := "waiting" }
  else s

/-- Short-press branch for button 1, src/code.py lines 404-407: a
diagnostic `print` (not part of the state) and a reset to `"waiting"`. -/
def applyShort1 (s : LoopState) : LoopState :=
  if s.btn1_status = "short" then { s with btn1_status := "waiting" } else s

/-- Short-press branch for button 2, src/code.py lines 409-412. -/
def applyShort2 (s : LoopState) : LoopState :=
  if s.btn2_status = "short" then { s with btn2_status := "waiting" } else s

/-- Short-press branch for button 3, src/code.py lines 414-417. -/
def applyShort3 (s : LoopState) : LoopState :=
  if s.btn3_status = "short" then { s with btn3_status := "waiting" } else s

/-- Short-press branch for button 4, src/code.py lines 419-422. -/
def applyShort4 (s : LoopState) : LoopState :=
  if s.btn4_status = "short" then { s with btn4_status := "waiting" } else s

/-- One slow tick of the main loop, src/code.py lines 360-425, with the
fresh knob samples `R_knob`, `G_knob`, `B_knob` already read.  In
`show_knob_value` mode: pack `rgb_value_i = (R << 16) | (G << 8) | B`,
run the display block, then the four long-press branches, then the four
short-press branches, in source order.  In any other mode the `else`
branch is `pass`. -/
def slowTick (R_knob G_knob B_knob : ℕ) (s : LoopState) : LoopState :=
  if s.mode = "show_knob_value" then
    let rgb_value_i := (R_knob <<< 16) ||| (G_knob <<< 8) ||| B_knob
    applyShort4 (applyShort3 (applyShort2 (applyShort1
      (applyLong4 R_knob G_knob B_knob rgb_value_i
        (applyLong3 R_knob G_knob B_knob rgb_value_i
          (applyLong2 R_knob G_knob B_knob rgb_value_i
            (applyLong1 R_knob G_knob B_knob rgb_value_i
              (liveUpdate R_knob G_knob B_knob rgb_value_i s))))))))
  else s

/-- The pixel events issued by one slow tick, src/code.py lines 364-425:
in `show_knob_value` mode the live-color pass (writes 0, 1, 4 and the
single `show`), followed by the slot write of each button whose latched
status is `"long"`; those slot writes have no `show` of their own.  In
any other mode the tick touches no pixels. -/
def slowTickPixelTrace (r g b : ℕ) (s : LoopState) : List PixelEvent :=
  if s.mode = "show_knob_value" then
    liveColorTrace r g b
      ++ (if s.btn1_status = "long" then
            [PixelEvent.write 6 ((r : ℤ), (g : ℤ), (b : ℤ))] else [])
      ++ (if s.btn2_status = "long" then
            [PixelEvent.write 5 ((r : ℤ), (g : ℤ), (b : ℤ))] else [])
      ++ (if s.btn3_status = "long" then
            [PixelEvent.write 2 ((r : ℤ), (g : ℤ), (b : ℤ))] else [])
      ++ (if s.btn4_status = "long" then
            [PixelEvent.write 3 ((r : ℤ), (g : ℤ), (b : ℤ))] else [])
  else []

/-- One fast-tick update of `fastloop_counter`, src/code.py lines
354-359: increment, and when the counter exceeds 24 reset it to 0 and
run the slow block.  Returns the new counter and whether the slow block
ran. -/
def fastloop_step (c : ℕ) : ℕ × Bool :=
  let c1 := c + 1
  if c1 > 24 then (0, true) else (c1, false)

/-- `fastloop_counter` after `n` loop iterations, starting from the
initialisation `fastloop_counter = 0` at src/code.py line 279. -/
def fastloop_counterAfter : ℕ → ℕ
  | 0 => 0
  | n + 1 => (fastloop_step (fastloop_counterAfter n)).1

/-- Whether the slow block runs during loop iteration `n + 1` (the
iteration that takes the counter from `fastloop_counterAfter n` to
`fastloop_counterAfter (n+1)`). -/
def slowRuns (n : ℕ) : Bool :=
  (fastloop_step (fastloop_counterAfter n)).2

/-- Knob-sample stream of the concrete startup scenario: all knobs sit
at `(100, 0, 0)` until the sample read by animation frame 42 comes back
as `(107, 0, 0)`. -/
def scenarioSamples : ℕ → ℤ × ℤ × ℤ :=
  fun n => if n < 42 then (100, 0, 0) else (107, 0, 0)

/-- `fastloop_counter` cycles through `0..24`: after `n` iterations it
equals `n % 25`. -/
theorem fastloop_counterAfter_mod (n : ℕ) : fastloop_counterAfter n = n % 25 := by
  induction n with
  | zero => rfl
  | succ n ih =>
    simp only [fastloop_counterAfter, fastloop_step, ih]
    split_ifs with h <;> simp <;> omega

/-- C8: after startup the slow path runs exactly once per 25 fast-tick
iterations: the counter is incremented every iteration, the slow block
runs only when the counter exceeds 24, the counter is then reset to 0,
and consequently the counter after `n` iterations is `n % 25` and the
slow block runs in iteration `n + 1` exactly when `n + 1` is a multiple
of 25. -/
theorem slow_block_every_25_iterations (n : ℕ) :
    fastloop_counterAfter n = n % 25 ∧ (slowRuns n = true ↔ (n + 1) % 25 = 0) := by
  refine ⟨fastloop_counterAfter_mod n, ?_⟩
  simp only [slowRuns, fastloop_step, fastloop_counterAfter_mod n]
  split_ifs with h <;> simp <;> omega

/-- C2: for every button `k` and every debounced press/release cycle,
the `rose` handler latches `"short"` when the press duration
`now - start` is below 0.75 seconds and `"long"` when it is at least
0.75 seconds. -/
theorem press_duration_classification (k : Fin 4) (now start : ℚ) (s : LoopState) :
    (now - start < 0.75 →
      btnStatusOf k (button_rose_update k now start s) = "short") ∧
    (0.75 ≤ now - start →
      btnStatusOf k (button_rose_update k now start s) = "long") := by
  constructor <;> intro h <;>
    fin_cases k <;>
      simp only [button_rose_update, classify_downtime, setBtnStatus, btnStatusOf] <;>
      first
        | rw [if_pos h]
        | rw [if_neg (not_lt.mpr h)]

/-- C2 witness: a 0.5 s press on button 2 classifies as short, a 1.0 s
press classifies as long. -/
theorem press_duration_classification_witness :
    (((0.5 : ℚ) - 0 < 0.75) ∧
      btnStatusOf 1 (button_rose_update 1 0.5 0 initState) = "short") ∧
    (((0.75 : ℚ) ≤ 1 - 0) ∧
      btnStatusOf 1 (button_rose_update 1 1 0 initState) = "long") :=
  ⟨⟨by norm_num, (press_duration_classification 1 0.5 0 initState).1 (by norm_num)⟩,
   ⟨by norm_num, (press_duration_classification 1 1 0 initState).2 (by norm_num)⟩⟩

/-- C9: `wheel` always yields a triple of integers in `[0, 255]`;
out-of-range positions yield black; hence every color the startup
animation writes to the pixel array is a valid RGB triple. -/
theorem wheel_yields_valid_rgb :
    (∀ pos : ℤ,
      0 ≤ (wheel pos).1 ∧ (wheel pos).1 ≤ 255 ∧
      0 ≤ (wheel pos).2.1 ∧ (wheel pos).2.1 ≤ 255 ∧
      0 ≤ (wheel pos).2.2 ∧ (wheel pos).2.2 ≤ 255) ∧
    (∀ pos : ℤ, pos < 0 ∨ 255 < pos → wheel pos = (0, 0, 0)) ∧
    (∀ j : ℕ, ∀ i : ℕ, ∀ c : ℤ × ℤ × ℤ, PixelEvent.write i c ∈ startupFrameTrace j →
      0 ≤ c.1 ∧ c.1 ≤ 255 ∧ 0 ≤ c.2.1 ∧ c.2.1 ≤ 255 ∧ 0 ≤ c.2.2 ∧ c.2.2 ≤ 255) := by
  have hrange : ∀ pos : ℤ,
      0 ≤ (wheel pos).1 ∧ (wheel pos).1 ≤ 255 ∧
      0 ≤ (wheel pos).2.1 ∧ (wheel pos).2.1 ≤ 255 ∧
      0 ≤ (wheel pos).2.2 ∧ (wheel pos).2.2 ≤ 255 := by
    intro pos
    unfold wheel
    split_ifs with h1 h2 h3 <;> simp only [] <;> omega
  refine ⟨hrange, ?_, ?_⟩
  · intro pos h
    rw [wheel, if_pos h]
  · intro j i c hc
    simp only [startupFrameTrace, List.mem_append, List.mem_map, List.mem_range,
      List.mem_singleton] at hc
    rcases hc with ⟨i', _, heq⟩ | heq
    · cases heq
      exact hrange _
    · cases heq

/-- C9 witness: position 300 is outside `[0, 255]` and maps to black. -/
theorem wheel_yields_valid_rgb_witness :
    ((300 : ℤ) < 0 ∨ (255 : ℤ) < 300) ∧ wheel 300 = (0, 0, 0) :=
  ⟨by decide, wheel_yields_valid_rgb.2.1 300 (by decide)⟩

/-- C4 counterexample: the startup-exit blanking loop of src/code.py
lines 203-205 has `neopixels.show()` inside the per-pixel `for` body, so
it issues seven `show` calls, one after each individual pixel write; its
trace is not a batch of writes followed by a single `show`. -/
theorem blanking_trace_not_batched :
    blankingTrace.count PixelEvent.show = 7 ∧ ¬ batchedTrace blankingTrace := by
  constructor
  · decide
  · rw [batchedTrace]
    decide

/-- C4 (amended): each startup-animation frame and the live-color pass
of a slow tick issue all their per-index pixel writes first, followed by
exactly one `show`; the startup-exit blanking loop, by exception, issues
one `show` after each of its seven individual pixel writes. -/
theorem rendering_batched_except_blanking (j r g b : ℕ) :
    batchedTrace (startupFrameTrace j) ∧ batchedTrace (liveColorTrace r g b) ∧
    blankingTrace.count PixelEvent.show = 7 := by
  refine ⟨⟨?_, ?_⟩, ⟨?_, ?_⟩, by decide⟩
  · rw [startupFrameTrace, List.count_append]
    rw [List.count_eq_zero.mpr (by simp [List.mem_map])]
    rfl
  · rw [startupFrameTrace]
    exact List.getLast?_concat _
  · simp [liveColorTrace, List.count_cons]
  · rfl

/-- C10: every pixel write the program issues — in the startup
animation, the startup-exit blanking loop, and the slow tick (both the
live-color writes and the slot-save writes) — uses an index below
`NUMPIXELS = 7`. -/
theorem pixel_write_indices_in_bounds :
    (∀ j : ℕ, ∀ e ∈ startupFrameTrace j, eventInBounds e) ∧
    (∀ e ∈ blankingTrace, eventInBounds e) ∧
    (∀ r g b : ℕ, ∀ s : LoopState, ∀ e ∈ slowTickPixelTrace r g b s, eventInBounds e) := by
  refine ⟨?_, ?_, ?_⟩
  · intro j e he
    simp only [startupFrameTrace, List.mem_append, List.mem_map, List.mem_range,
      List.mem_singleton] at he
    rcases he with ⟨i, hi, rfl⟩ | rfl
    · simpa [eventInBounds] using hi
    · trivial
  · intro e he
    simp only [blankingTrace, List.mem_flatMap, List.mem_range, List.mem_cons,
      List.mem_singleton, List.not_mem_nil, or_false] at he
    rcases he with ⟨i, hi, rfl | rfl⟩
    · simpa [eventInBounds] using hi
    · trivial
  · intro r g b s e he
    rw [slowTickPixelTrace] at he
    split_ifs at he <;>
      simp only [liveColorTrace, List.mem_append, List.mem_cons, List.mem_singleton,
        List.not_mem_nil, or_false, false_or] at he <;>
      casesm* _ ∨ _ <;>
      subst_vars <;>
      simp [eventInBounds, NUMPIXELS]

/-- C10 witness: the first write of the blanking loop targets index 0,
which is inside the strip. -/
theorem pixel_write_indices_in_bounds_witness :
    PixelEvent.write 0 (0, 0, 0) ∈ blankingTrace ∧
      eventInBounds (PixelEvent.write 0 (0, 0, 0)) :=
  ⟨by decide, pixel_write_indices_in_bounds.2.1 (PixelEvent.write 0 (0, 0, 0)) (by decide)⟩

/-- The animation loop can never execute more frames than it has fuel. -/
theorem startupFramesAux_le (samples : ℕ → ℤ × ℤ × ℤ) (fuel : ℕ) :
    ∀ frames : ℕ, startupFramesAux samples fuel frames ≤ frames + fuel := by
  induction fuel with
  | zero => intro frames; simp [startupFramesAux]
  | succ fuel ih =>
    intro frames
    rw [startupFramesAux]
    split_ifs
    · omega
    · have := ih (frames + 1)
      omega

/-- If no consecutive samples ever move, the loop exhausts its fuel. -/
theorem startupFramesAux_no_motion (samples : ℕ → ℤ × ℤ × ℤ)
    (h : ∀ j : ℕ, knobMoved (samples j) (samples (j + 1)) = false) (fuel : ℕ) :
    ∀ frames : ℕ, startupFramesAux samples fuel frames = frames + fuel := by
  induction fuel with
  | zero => intro frames; simp [startupFramesAux]
  | succ fuel ih =>
    intro frames
    rw [startupFramesAux, h frames]
    simp only [Bool.false_eq_true, if_false]
    rw [ih (frames + 1)]
    omega

/-- If the first motion between consecutive samples is at index `k`,
the loop exits after frame `k + 1` (counting frames from 1). -/
theorem startupFramesAux_first_motion (samples : ℕ → ℤ × ℤ × ℤ) (fuel : ℕ) :
    ∀ frames k : ℕ, frames ≤ k → k < frames + fuel →
      (∀ j : ℕ, frames ≤ j → j < k → knobMoved (samples j) (samples (j + 1)) = false) →
      knobMoved (samples k) (samples (k + 1)) = true →
      startupFramesAux samples fuel frames = k + 1 := by
  induction fuel with
  | zero => intro frames k h1 h2 _ _; omega
  | succ fuel ih =>
    intro frames k h1 h2 hquiet hmove
    rw [startupFramesAux]
    rcases Nat.eq_or_lt_of_le h1 with rfl | hlt
    · rw [hmove]
      simp
    · rw [hquiet frames le_rfl hlt]
      simp only [Bool.false_eq_true, if_false]
      exact ih (frames + 1) k hlt (by omega)
        (fun j hj hj2 => hquiet j (by omega) hj2) hmove

/-- C5: the startup animation runs for at most 5000 frames; it exits
after the first frame whose fresh knob sample differs from the previous
frame's sample by more than 5 units on some channel (frame `k + 1` when
the first motion is between samples `k` and `k + 1`), and if no such
frame occurs it runs all 5000 frames. -/
theorem startup_animation_exit (samples : ℕ → ℤ × ℤ × ℤ) :
    startupFrames samples ≤ 5000 ∧
    ((∀ j : ℕ, knobMoved (samples j) (samples (j + 1)) = false) →
      startupFrames samples = 5000) ∧
    (∀ k : ℕ, k < 5000 →
      (∀ j : ℕ, j < k → knobMoved (samples j) (samples (j + 1)) = false) →
      knobMoved (samples k) (samples (k + 1)) = true →
      startupFrames samples = k + 1) := by
  refine ⟨?_, ?_, ?_⟩
  · simpa using startupFramesAux_le samples 5000 0
  · intro h
    simpa using startupFramesAux_no_motion samples h 5000 0
  · intro k hk hquiet hmove
    exact startupFramesAux_first_motion samples 5000 0 k (Nat.zero_le k) (by omega)
      (fun j _ hj => hquiet j hj) hmove

/-- C5 witness: in the scenario where the red knob reads 100 on every
sample until the sample of frame 42 comes back 107 (delta 7 > 5), the
animation exits at frame 42. -/
theorem startup_animation_exit_witness :
    (41 < 5000 ∧
     (∀ j : ℕ, j < 41 → knobMoved (scenarioSamples j) (scenarioSamples (j + 1)) = false) ∧
     knobMoved (scenarioSamples 41) (scenarioSamples (41 + 1)) = true) ∧
    startupFrames scenarioSamples = 42 :=
  ⟨⟨by decide, by decide, by decide⟩,
   (startup_animation_exit scenarioSamples).2.2 41 (by decide) (by decide) (by decide)⟩

/-- The knob mapping clamps every raw reading into `[0, 255]`. -/
theorem map_range_knob_mem (x : ℚ) :
    0 ≤ map_range x 1000 64000 0 255 ∧ map_range x 1000 64000 0 255 ≤ 255 := by
  simp only [map_range]
  rw [if_pos (by norm_num : (0 : ℚ) ≤ 255)]
  exact ⟨le_max_right _ _, max_le (min_le_right _ _) (by norm_num)⟩

/-- The sum of the mapped readings lies in `[0, 255 * length]`. -/
theorem mapped_sum_bounds (l : List ℤ) :
    0 ≤ (l.map (fun v : ℤ => map_range (v : ℚ) 1000 64000 0 255)).sum ∧
    (l.map (fun v : ℤ => map_range (v : ℚ) 1000 64000 0 255)).sum ≤ 255 * l.length := by
  induction l with
  | nil => simp
  | cons a l ih =>
    simp only [List.map_cons, List.sum_cons, List.length_cons]
    have h := map_range_knob_mem (a : ℚ)
    constructor
    · linarith [ih.1, h.1]
    · push_cast
      linarith [ih.2, h.2]

/-- C1: for every sequence of 8 raw ADC readings, including readings
outside the documented window `[1000, 64000]`, `get_knob` — which
range-maps each raw reading onto `[0, 255]` first, then averages the 8
mapped values and truncates — returns an integer in `[0, 255]`. -/
theorem get_knob_in_byte_range (readings : List ℤ) (h : readings.length = 8) :
    0 ≤ get_knob readings ∧ get_knob readings ≤ 255 := by
  rw [get_knob]
  have hb := mapped_sum_bounds readings
  rw [h] at hb
  set S : ℚ := (readings.map (fun v : ℤ => map_range (v : ℚ) 1000 64000 0 255)).sum with hS
  have havg0 : 0 ≤ S / 8 := div_nonneg hb.1 (by norm_num)
  have havg255 : S / 8 ≤ 255 := by
    rw [div_le_iff₀ (by norm_num : (0 : ℚ) < 8)]
    push_cast at hb
    linarith [hb.2]
  simp only [pyInt, if_pos havg0]
  constructor
  · exact Int.floor_nonneg.mpr havg0
  · calc ⌊S / 8⌋ ≤ ⌊(255 : ℚ)⌋ := Int.floor_le_floor havg255
    _ = 255 := by norm_num

/-- C1 witness: eight readings, several outside the documented window
(0 and 65535 at the hardware rails), still average to a byte value. -/
theorem get_knob_in_byte_range_witness :
    ([0, 65535, 1000, 64000, 32000, 500, 64500, 12345] : List ℤ).length = 8 ∧
    (0 ≤ get_knob [0, 65535, 1000, 64000, 32000, 500, 64500, 12345] ∧
      get_knob [0, 65535, 1000, 64000, 32000, 500, 64500, 12345] ≤ 255) :=
  ⟨by decide, get_knob_in_byte_range [0, 65535, 1000, 64000, 32000, 500, 64500, 12345]
    (by decide)⟩

/-- In `show_knob_value` mode the slow tick is the display block
followed by the four long branches and the four short branches. -/
theorem slowTick_unfold (r g b : ℕ) (s : LoopState) (h : s.mode = "show_knob_value") :
    slowTick r g b s =
      applyShort4 (applyShort3 (applyShort2 (applyShort1
        (applyLong4 r g b ((r <<< 16) ||| (g <<< 8) ||| b)
          (applyLong3 r g b ((r <<< 16) ||| (g <<< 8) ||| b)
            (applyLong2 r g b ((r <<< 16) ||| (g <<< 8) ||| b)
              (applyLong1 r g b ((r <<< 16) ||| (g <<< 8) ||| b)
                (liveUpdate r g b ((r <<< 16) ||| (g <<< 8) ||| b) s)))))))) := by
  rw [slowTick, if_pos h]

/-- Fields button 1's long branch never touches. -/
theorem applyLong1_preserved (r g b v : ℕ) (s : LoopState) :
    (applyLong1 r g b v s).mode = s.mode ∧
    (applyLong1 r g b v s).mem2_rgb = s.mem2_rgb ∧
    (applyLong1 r g b v s).mem3_rgb = s.mem3_rgb ∧
    (applyLong1 r g b v s).mem4_rgb = s.mem4_rgb ∧
    (applyLong1 r g b v s).keep_this_rgb = s.keep_this_rgb ∧
    (applyLong1 r g b v s).btn2_status = s.btn2_status ∧
    (applyLong1 r g b v s).btn3_status = s.btn3_status ∧
    (applyLong1 r g b v s).btn4_status = s.btn4_status ∧
    (applyLong1 r g b v s).circle_mem_2_fill = s.circle_mem_2_fill ∧
    (applyLong1 r g b v s).circle_mem_3_fill = s.circle_mem_3_fill ∧
    (applyLong1 r g b v s).circle_mem_4_fill = s.circle_mem_4_fill ∧
    (applyLong1 r g b v s).big_circle_fill = s.big_circle_fill := by
  rcases eq_or_ne s.btn1_status "long" with h | h <;> simp [applyLong1, h]

/-- Fields button 2's long branch never touches. -/
theorem applyLong2_preserved (r g b v : ℕ) (s : LoopState) :
    (applyLong2 r g b v s).mode = s.mode ∧
    (applyLong2 r g b v s).mem1_rgb = s.mem1_rgb ∧
    (applyLong2 r g b v s).mem3_rgb = s.mem3_rgb ∧
    (applyLong2 r g b v s).mem4_rgb = s.mem4_rgb ∧
    (applyLong2 r g b v s).keep_this_rgb = s.keep_this_rgb ∧
    (applyLong2 r g b v s).btn1_status = s.btn1_status ∧
    (applyLong2 r g b v s).btn3_status = s.btn3_status ∧
    (applyLong2 r g b v s).btn4_status = s.btn4_status ∧
    (applyLong2 r g b v s).circle_mem_1_fill = s.circle_mem_1_fill ∧
    (applyLong2 r g b v s).circle_mem_3_fill = s.circle_mem_3_fill ∧
    (applyLong2 r g b v s).circle_mem_4_fill = s.circle_mem_4_fill ∧
    (applyLong2 r g b v s).big_circle_fill = s.big_circle_fill := by
  rcases eq_or_ne s.btn2_status "long" with h | h <;> simp [applyLong2, h]

/-- Fields button 3's long branch never touches. -/
theorem applyLong3_preserved (r g b v : ℕ) (s : LoopState) :
    (applyLong3 r g b v s).mode = s.mode ∧
    (applyLong3 r g b v s).mem1_rgb = s.mem1_rgb ∧
    (applyLong3 r g b v s).mem2_rgb = s.mem2_rgb ∧
    (applyLong3 r g b v s).mem4_rgb = s.mem4_rgb ∧
    (applyLong3 r g b v s).keep_this_rgb = s.keep_this_rgb ∧
    (applyLong3 r g b v s).btn1_status = s.btn1_status ∧
    (applyLong3 r g b v s).btn2_status = s.btn2_status ∧
    (applyLong3 r g b v s).btn4_status = s.btn4_status ∧
    (applyLong3 r g b v s).circle_mem_1_fill = s.circle_mem_1_fill ∧
    (applyLong3 r g b v s).circle_mem_2_fill = s.circle_mem_2_fill ∧
    (applyLong3 r g b v s).circle_mem_4_fill = s.circle_mem_4_fill ∧
    (applyLong3 r g b v s).big_circle_fill = s.big_circle_fill := by
  rcases eq_or_ne s.btn3_status "long" with h | h <;> simp [applyLong3, h]

/-- Fields button 4's long branch never touches. -/
theorem applyLong4_preserved (r g b v : ℕ) (s : LoopState) :
    (applyLong4 r g b v s).mode = s.mode ∧
    (applyLong4 r g b v s).mem1_rgb = s.mem1_rgb ∧
    (applyLong4 r g b v s).mem2_rgb = s.mem2_rgb ∧
    (applyLong4 r g b v s).mem3_rgb = s.mem3_rgb ∧
    (applyLong4 r g b v s).keep_this_rgb = s.keep_this_rgb ∧
    (applyLong4 r g b v s).btn1_status = s.btn1_status ∧
    (applyLong4 r g b v s).btn2_status = s.btn2_status ∧
    (applyLong4 r g b v s).btn3_status = s.btn3_status ∧
    (applyLong4 r g b v s).circle_mem_1_fill = s.circle_mem_1_fill ∧
    (applyLong4 r g b v s).circle_mem_2_fill = s.circle_mem_2_fill ∧
    (applyLong4 r g b v s).circle_mem_3_fill = s.circle_mem_3_fill ∧
    (applyLong4 r g b v s).big_circle_fill = s.big_circle_fill := by
  rcases eq_or_ne s.btn4_status "long" with h | h <;> simp [applyLong4, h]

/-- Short branches only touch their own status flag. -/
theorem applyShort1_preserved (s : LoopState) :
    (applyShort1 s).mode = s.mode ∧
    (applyShort1 s).mem1_rgb = s.mem1_rgb ∧
    (applyShort1 s).mem2_rgb = s.mem2_rgb ∧
    (applyShort1 s).mem3_rgb = s.mem3_rgb ∧
    (applyShort1 s).mem4_rgb = s.mem4_rgb ∧
    (applyShort1 s).keep_this_rgb = s.keep_this_rgb ∧
    (applyShort1 s).btn2_status = s.btn2_status ∧
    (applyShort1 s).btn3_status = s.btn3_status ∧
    (applyShort1 s).btn4_status = s.btn4_status ∧
    (applyShort1 s).disp_r_text = s.disp_r_text ∧
    (applyShort1 s).disp_g_text = s.disp_g_text ∧
    (applyShort1 s).disp_b_text = s.disp_b_text ∧
    (applyShort1 s).disp_h_text = s.disp_h_text ∧
    (applyShort1 s).big_circle_fill = s.big_circle_fill ∧
    (applyShort1 s).circle_mem_1_fill = s.circle_mem_1_fill ∧
    (applyShort1 s).circle_mem_2_fill = s.circle_mem_2_fill ∧
    (applyShort1 s).circle_mem_3_fill = s.circle_mem_3_fill ∧
    (applyShort1 s).circle_mem_4_fill = s.circle_mem_4_fill ∧
    (applyShort1 s).pixels = s.pixels := by
  rcases eq_or_ne s.btn1_status "short" with h | h <;> simp [applyShort1, h]

/-- Short branches only touch their own status flag. -/
theorem applyShort2_preserved (s : LoopState) :
    (applyShort2 s).mode = s.mode ∧
    (applyShort2 s).mem1_rgb = s.mem1_rgb ∧
    (applyShort2 s).mem2_rgb = s.mem2_rgb ∧
    (applyShort2 s).mem3_rgb = s.mem3_rgb ∧
    (applyShort2 s).mem4_rgb = s.mem4_rgb ∧
    (applyShort2 s).keep_this_rgb = s.keep_this_rgb ∧
    (applyShort2 s).btn1_status = s.btn1_status ∧
    (applyShort2 s).btn3_status = s.btn3_status ∧
    (applyShort2 s).btn4_status = s.btn4_status ∧
    (applyShort2 s).disp_r_text = s.disp_r_text ∧
    (applyShort2 s).disp_g_text = s.disp_g_text ∧
    (applyShort2 s).disp_b_text = s.disp_b_text ∧
    (applyShort2 s).disp_h_text = s.disp_h_text ∧
    (applyShort2 s).big_circle_fill = s.big_circle_fill ∧
    (applyShort2 s).circle_mem_1_fill = s.circle_mem_1_fill ∧
    (applyShort2 s).circle_mem_2_fill = s.circle_mem_2_fill ∧
    (applyShort2 s).circle_mem_3_fill = s.circle_mem_3_fill ∧
    (applyShort2 s).circle_mem_4_fill = s.circle_mem_4_fill ∧
    (applyShort2 s).pixels = s.pixels := by
  rcases eq_or_ne s.btn2_status "short" with h | h <;> simp [applyShort2, h]

/-- Short branches only touch their own status flag. -/
theorem applyShort3_preserved (s : LoopState) :
    (applyShort3 s).mode = s.mode ∧
    (applyShort3 s).mem1_rgb = s.mem1_rgb ∧
    (applyShort3 s).mem2_rgb = s.mem2_rgb ∧
    (applyShort3 s).mem3_rgb = s.mem3_rgb ∧
    (applyShort3 s).mem4_rgb = s.mem4_rgb ∧
    (applyShort3 s).keep_this_rgb = s.keep_this_rgb ∧
    (applyShort3 s).btn1_status = s.btn1_status ∧
    (applyShort3 s).btn2_status = s.btn2_status ∧
    (applyShort3 s).btn4_status = s.btn4_status ∧
    (applyShort3 s).disp_r_text = s.disp_r_text ∧
    (applyShort3 s).disp_g_text = s.disp_g_text ∧
    (applyShort3 s).disp_b_text = s.disp_b_text ∧
    (applyShort3 s).disp_h_text = s.disp_h_text ∧
    (applyShort3 s).big_circle_fill = s.big_circle_fill ∧
    (applyShort3 s).circle_mem_1_fill = s.circle_mem_1_fill ∧
    (applyShort3 s).circle_mem_2_fill = s.circle_mem_2_fill ∧
    (applyShort3 s).circle_mem_3_fill = s.circle_mem_3_fill ∧
    (applyShort3 s).circle_mem_4_fill = s.circle_mem_4_fill ∧
    (applyShort3 s).pixels = s.pixels := by
  rcases eq_or_ne s.btn3_status "short" with h | h <;> simp [applyShort3, h]

/-- Short branches only touch their own status flag. -/
theorem applyShort4_preserved (s : LoopState) :
    (applyShort4 s).mode = s.mode ∧
    (applyShort4 s).mem1_rgb = s.mem1_rgb ∧
    (applyShort4 s).mem2_rgb = s.mem2_rgb ∧
    (applyShort4 s).mem3_rgb = s.mem3_rgb ∧
    (applyShort4 s).mem4_rgb = s.mem4_rgb ∧
    (applyShort4 s).keep_this_rgb = s.keep_this_rgb ∧
    (applyShort4 s).btn1_status = s.btn1_status ∧
    (applyShort4 s).btn2_status = s.btn2_status ∧
    (applyShort4 s).btn3_status = s.btn3_status ∧
    (applyShort4 s).disp_r_text = s.disp_r_text ∧
    (applyShort4 s).disp_g_text = s.disp_g_text ∧
    (applyShort4 s).disp_b_text = s.disp_b_text ∧
    (applyShort4 s).disp_h_text = s.disp_h_text ∧
    (applyShort4 s).big_circle_fill = s.big_circle_fill ∧
    (applyShort4 s).circle_mem_1_fill = s.circle_mem_1_fill ∧
    (applyShort4 s).circle_mem_2_fill = s.circle_mem_2_fill ∧
    (applyShort4 s).circle_mem_3_fill = s.circle_mem_3_fill ∧
    (applyShort4 s).circle_mem_4_fill = s.circle_mem_4_fill ∧
    (applyShort4 s).pixels = s.pixels := by
  rcases eq_or_ne s.btn4_status "short" with h | h <;> simp [applyShort4, h]

/-- Button 1's long branch when its latched status is `"long"`. -/
theorem applyLong1_fires (r g b v : ℕ) (s : LoopState) (h : s.btn1_status = "long") :
    applyLong1 r g b v s =
      { s with
        mem1_rgb := s.keep_this_rgb
        circle_mem_1_fill := v
        pixels := Function.update s.pixels 6 (r, g, b)
        btn1_status := "waiting" } := by
  rw [applyLong1, if_pos h]

/-- Button 2's long branch when its latched status is `"long"`. -/
theorem applyLong2_fires (r g b v : ℕ) (s : LoopState) (h : s.btn2_status = "long") :
    applyLong2 r g b v s =
      { s with
        mem2_rgb := s.keep_this_rgb
        circle_mem_2_fill := v
        pixels := Function.update s.pixels 5 (r, g, b)
        btn2_status := "waiting" } := by
  rw [applyLong2, if_pos h]

/-- Button 3's long branch when its latched status is `"long"`. -/
theorem applyLong3_fires (r g b v : ℕ) (s : LoopState) (h : s.btn3_status = "long") :
    applyLong3 r g b v s =
      { s with
        mem3_rgb := s.keep_this_rgb
        circle_mem_3_fill := v
        pixels := Function.update s.pixels 2 (r, g, b)
        btn3_status := "waiting" } := by
  rw [applyLong3, if_pos h]

/-- Button 4's long branch when its latched status is `"long"`. -/
theorem applyLong4_fires (r g b v : ℕ) (s : LoopState) (h : s.btn4_status = "long") :
    applyLong4 r g b v s =
      { s with
        mem4_rgb := s.keep_this_rgb
        circle_mem_4_fill := v
        pixels := Function.update s.pixels 3 (r, g, b)
        btn4_status := "waiting" } := by
  rw [applyLong4, if_pos h]

/-- Long branches are skipped when the latched status is not `"long"`. -/
theorem applyLong1_skip (r g b v : ℕ) (s : LoopState) (h : s.btn1_status ≠ "long") :
    applyLong1 r g b v s = s := by
  rw [applyLong1, if_neg h]

/-- Long branches are skipped when the latched status is not `"long"`. -/
theorem applyLong2_skip (r g b v : ℕ) (s : LoopState) (h : s.btn2_status ≠ "long") :
    applyLong2 r g b v s = s := by
  rw [applyLong2, if_neg h]

/-- Long branches are skipped when the latched status is not `"long"`. -/
theorem applyLong3_skip (r g b v : ℕ) (s : LoopState) (h : s.btn3_status ≠ "long") :
    applyLong3 r g b v s = s := by
  rw [applyLong3, if_neg h]

/-- Long branches are skipped when the latched status is not `"long"`. -/
theorem applyLong4_skip (r g b v : ℕ) (s : LoopState) (h : s.btn4_status ≠ "long") :
    applyLong4 r g b v s = s := by
  rw [applyLong4, if_neg h]

/-- Net effect of a short branch on its own status flag. -/
theorem applyShort1_status (s : LoopState) :
    (applyShort1 s).btn1_status =
      if s.btn1_status = "short" then "waiting" else s.btn1_status := by
  rcases eq_or_ne s.btn1_status "short" with h | h <;> simp [applyShort1, h]

/-- Net effect of a short branch on its own status flag. -/
theorem applyShort2_status (s : LoopState) :
    (applyShort2 s).btn2_status =
      if s.btn2_status = "short" then "waiting" else s.btn2_status := by
  rcases eq_or_ne s.btn2_status "short" with h | h <;> simp [applyShort2, h]

/-- Net effect of a short branch on its own status flag. -/
theorem applyShort3_status (s : LoopState) :
    (applyShort3 s).btn3_status =
      if s.btn3_status = "short" then "waiting" else s.btn3_status := by
  rcases eq_or_ne s.btn3_status "short" with h | h <;> simp [applyShort3, h]

/-- Net effect of a short branch on its own status flag. -/
theorem applyShort4_status (s : LoopState) :
    (applyShort4 s).btn4_status =
      if s.btn4_status = "short" then "waiting" else s.btn4_status := by
  rcases eq_or_ne s.btn4_status "short" with h | h <;> simp [applyShort4, h]

/-- C6: saving a color into a slot and immediately reading the slot
returns the color exactly: a slow tick in `show_knob_value` mode with
button `k` latched `"long"` stores the current knob triple `(r, g, b)`
in slot `k`, for every slot and every representable triple. -/
theorem slot_save_roundtrip (k : Fin 4) (r g b : ℕ) (s : LoopState)
    (hmode : s.mode = "show_knob_value") (hk : btnStatusOf k s = "long") :
    memOf k (slowTick r g b s) = (r, g, b) := by
  rw [slowTick_unfold r g b s hmode]
  fin_cases k <;>
    simp only [btnStatusOf] at hk <;>
    simp [memOf, applyShort1_preserved, applyShort2_preserved, applyShort3_preserved,
      applyShort4_preserved, applyLong1_preserved, applyLong2_preserved,
      applyLong3_preserved, applyLong4_preserved, applyLong1_fires, applyLong2_fires,
      applyLong3_fires, applyLong4_fires, liveUpdate, hk]

/-- C6 witness: with button 2 latched long, a tick at knobs
`(10, 20, 30)` leaves `(10, 20, 30)` in slot 2. -/
theorem slot_save_roundtrip_witness :
    ((setBtnStatus 1 "long" initState).mode = "show_knob_value" ∧
      btnStatusOf 1 (setBtnStatus 1 "long" initState) = "long") ∧
    memOf 1 (slowTick 10 20 30 (setBtnStatus 1 "long" initState)) = (10, 20, 30) :=
  ⟨⟨rfl, rfl⟩, slot_save_roundtrip 1 10 20 30 (setBtnStatus 1 "long" initState) rfl rfl⟩

/-- C3: when button `k`'s latched classification is `"long"` at a slow
tick in `show_knob_value` mode (and no other button is latched long),
slot `k` is overwritten with the current knob triple, slot `k`'s
indicator circle fill and its dedicated pixel take that color, button
`k`'s classification resets to `"waiting"`, the other three slots are
unchanged, and slots never written hold black, as at initialisation. -/
theorem long_press_saves_slot (k : Fin 4) (r g b : ℕ) (s : LoopState)
    (hmode : s.mode = "show_knob_value")
    (hk : btnStatusOf k s = "long")
    (hothers : ∀ j : Fin 4, j ≠ k → btnStatusOf j s ≠ "long") :
    memOf k (slowTick r g b s) = (r, g, b) ∧
    circleFillOf k (slowTick r g b s) = ((r <<< 16) ||| (g <<< 8) ||| b) ∧
    (slowTick r g b s).pixels (slotPixel k) = (r, g, b) ∧
    btnStatusOf k (slowTick r g b s) = "waiting" ∧
    (∀ j : Fin 4, j ≠ k → memOf j (slowTick r g b s) = memOf j s) ∧
    (∀ j : Fin 4, memOf j initState = (0, 0, 0)) := by
  rw [slowTick_unfold r g b s hmode]
  fin_cases k
  · simp only [btnStatusOf] at hk
    have h2 : s.btn2_status ≠ "long" := by simpa [btnStatusOf] using hothers 1 (by decide)
    have h3 : s.btn3_status ≠ "long" := by simpa [btnStatusOf] using hothers 2 (by decide)
    have h4 : s.btn4_status ≠ "long" := by simpa [btnStatusOf] using hothers 3 (by decide)
    refine ⟨?_, ?_, ?_, ?_, ?_, fun j => by fin_cases j <;> rfl⟩
    · simp [memOf, applyShort1_preserved, applyShort2_preserved, applyShort3_preserved,
        applyShort4_preserved, applyLong2_skip, applyLong3_skip, applyLong4_skip,
        applyLong1_fires, liveUpdate, hk, h2, h3, h4]
    · simp [circleFillOf, applyShort1_preserved, applyShort2_preserved,
        applyShort3_preserved, applyShort4_preserved, applyLong2_skip, applyLong3_skip,
        applyLong4_skip, applyLong1_fires, liveUpdate, hk, h2, h3, h4]
    · simp [slotPixel, applyShort1_preserved, applyShort2_preserved, applyShort3_preserved,
        applyShort4_preserved, applyLong2_skip, applyLong3_skip, applyLong4_skip,
        applyLong1_fires, liveUpdate, Function.update_apply, hk, h2, h3, h4]
    · simp [btnStatusOf, applyShort1_status, applyShort2_preserved, applyShort3_preserved,
        applyShort4_preserved, applyLong2_skip, applyLong3_skip, applyLong4_skip,
        applyLong1_fires, liveUpdate, hk, h2, h3, h4]
    · intro j hj
      fin_cases j
      · exact absurd rfl hj
      all_goals
        simp [memOf, applyShort1_preserved, applyShort2_preserved, applyShort3_preserved,
          applyShort4_preserved, applyLong2_skip, applyLong3_skip, applyLong4_skip,
          applyLong1_fires, liveUpdate, hk, h2, h3, h4]
  · simp only [btnStatusOf] at hk
    have h1 : s.btn1_status ≠ "long" := by simpa [btnStatusOf] using hothers 0 (by decide)
    have h3 : s.btn3_status ≠ "long" := by simpa [btnStatusOf] using hothers 2 (by decide)
    have h4 : s.btn4_status ≠ "long" := by simpa [btnStatusOf] using hothers 3 (by decide)
    refine ⟨?_, ?_, ?_, ?_, ?_, fun j => by fin_cases j <;> rfl⟩
    · simp [memOf, applyShort1_preserved, applyShort2_preserved, applyShort3_preserved,
        applyShort4_preserved, applyLong1_skip, applyLong3_skip, applyLong4_skip,
        applyLong2_fires, liveUpdate, hk, h1, h3, h4]
    · simp [circleFillOf, applyShort1_preserved, applyShort2_preserved,
        applyShort3_preserved, applyShort4_preserved, applyLong1_skip, applyLong3_skip,
        applyLong4_skip, applyLong2_fires, liveUpdate, hk, h1, h3, h4]
    · simp [slotPixel, applyShort1_preserved, applyShort2_preserved, applyShort3_preserved,
        applyShort4_preserved, applyLong1_skip, applyLong3_skip, applyLong4_skip,
        applyLong2_fires, liveUpdate, Function.update_apply, hk, h1, h3, h4]
    · simp [btnStatusOf, applyShort2_status, applyShort1_preserved, applyShort3_preserved,
        applyShort4_preserved, applyLong1_skip, applyLong3_skip, applyLong4_skip,
        applyLong2_fires, liveUpdate, hk, h1, h3, h4]
    · intro j hj
      fin_cases j
      case _ => -- j = 0
        simp [memOf, applyShort1_preserved, applyShort2_preserved, applyShort3_preserved,
          applyShort4_preserved, applyLong1_skip, applyLong3_skip, applyLong4_skip,
          applyLong2_fires, liveUpdate, hk, h1, h3, h4]
      case _ => exact absurd rfl hj
      all_goals
        simp [memOf, applyShort1_preserved, applyShort2_preserved, applyShort3_preserved,
          applyShort4_preserved, applyLong1_skip, applyLong3_skip, applyLong4_skip,
          applyLong2_fires, liveUpdate, hk, h1, h3, h4]
  · simp only [btnStatusOf] at hk
    have h1 : s.btn1_status ≠ "long" := by simpa [btnStatusOf] using hothers 0 (by decide)
    have h2 : s.btn2_status ≠ "long" := by simpa [btnStatusOf] using hothers 1 (by decide)
    have h4 : s.btn4_status ≠ "long" := by simpa [btnStatusOf] using hothers 3 (by decide)
    refine ⟨?_, ?_, ?_, ?_, ?_, fun j => by fin_cases j <;> rfl⟩
    · simp [memOf, applyShort1_preserved, applyShort2_preserved, applyShort3_preserved,
        applyShort4_preserved, applyLong1_skip, applyLong2_skip, applyLong4_skip,
        applyLong3_fires, liveUpdate, hk, h1, h2, h4]
    · simp [circleFillOf, applyShort1_preserved, applyShort2_preserved,
        applyShort3_preserved, applyShort4_preserved, applyLong1_skip, applyLong2_skip,
        applyLong4_skip, applyLong3_fires, liveUpdate, hk, h1, h2, h4]
    · simp [slotPixel, applyShort1_preserved, applyShort2_preserved, applyShort3_preserved,
        applyShort4_preserved, applyLong1_skip, applyLong2_skip, applyLong4_skip,
        applyLong3_fires, liveUpdate, Function.update_apply, hk, h1, h2, h4]
    · simp [btnStatusOf, applyShort3_status, applyShort1_preserved, applyShort2_preserved,
        applyShort4_preserved, applyLong1_skip, applyLong2_skip, applyLong4_skip,
        applyLong3_fires, liveUpdate, hk, h1, h2, h4]
    · intro j hj
      fin_cases j
      case _ =>
        simp [memOf, applyShort1_preserved, applyShort2_preserved, applyShort3_preserved,
          applyShort4_preserved, applyLong1_skip, applyLong2_skip, applyLong4_skip,
          applyLong3_fires, liveUpdate, hk, h1, h2, h4]
      case _ =>
        simp [memOf, applyShort1_preserved, applyShort2_preserved, applyShort3_preserved,
          applyShort4_preserved, applyLong1_skip, applyLong2_skip, applyLong4_skip,
          applyLong3_fires, liveUpdate, hk, h1, h2, h4]
      case _ => exact absurd rfl hj
      case _ =>
        simp [memOf, applyShort1_preserved, applyShort2_preserved, applyShort3_preserved,
          applyShort4_preserved, applyLong1_skip, applyLong2_skip, applyLong4_skip,
          applyLong3_fires, liveUpdate, hk, h1, h2, h4]
  · simp only [btnStatusOf] at hk
    have h1 : s.btn1_status ≠ "long" := by simpa [btnStatusOf] using hothers 0 (by decide)
    have h2 : s.btn2_status ≠ "long" := by simpa [btnStatusOf] using hothers 1 (by decide)
    have h3 : s.btn3_status ≠ "long" := by simpa [btnStatusOf] using hothers 2 (by decide)
    refine ⟨?_, ?_, ?_, ?_, ?_, fun j => by fin_cases j <;> rfl⟩
    · simp [memOf, applyShort1_preserved, applyShort2_preserved, applyShort3_preserved,
        applyShort4_preserved, applyLong1_skip, applyLong2_skip, applyLong3_skip,
        applyLong4_fires, liveUpdate, hk, h1, h2, h3]
    · simp [circleFillOf, applyShort1_preserved, applyShort2_preserved,
        applyShort3_preserved, applyShort4_preserved, applyLong1_skip, applyLong2_skip,
        applyLong3_skip, applyLong4_fires, liveUpdate, hk, h1, h2, h3]
    · simp [slotPixel, applyShort1_preserved, applyShort2_preserved, applyShort3_preserved,
        applyShort4_preserved, applyLong1_skip, applyLong2_skip, applyLong3_skip,
        applyLong4_fires, liveUpdate, Function.update_apply, hk, h1, h2, h3]
    · simp [btnStatusOf, applyShort4_status, applyShort1_preserved, applyShort2_preserved,
        applyShort3_preserved, applyLong1_skip, applyLong2_skip, applyLong3_skip,
        applyLong4_fires, liveUpdate, hk, h1, h2, h3]
    · intro j hj
      fin_cases j
      case _ =>
        simp [memOf, applyShort1_preserved, applyShort2_preserved, applyShort3_preserved,
          applyShort4_preserved, applyLong1_skip, applyLong2_skip, applyLong3_skip,
          applyLong4_fires, liveUpdate, hk, h1, h2, h3]
      case _ =>
        simp [memOf, applyShort1_preserved, applyShort2_preserved, applyShort3_preserved,
          applyShort4_preserved, applyLong1_skip, applyLong2_skip, applyLong3_skip,
          applyLong4_fires, liveUpdate, hk, h1, h2, h3]
      case _ =>
        simp [memOf, applyShort1_preserved, applyShort2_preserved, applyShort3_preserved,
          applyShort4_preserved, applyLong1_skip, applyLong2_skip, applyLong3_skip,
          applyLong4_fires, liveUpdate, hk, h1, h2, h3]
      case _ => exact absurd rfl hj

/-- C3 witness: a long press on button 3 with knobs at `(255, 0, 0)`
saves red in slot 3, paints its circle and pixel, and leaves slot 1
untouched. -/
theorem long_press_saves_slot_witness :
    ((setBtnStatus 2 "long" initState).mode = "show_knob_value" ∧
      btnStatusOf 2 (setBtnStatus 2 "long" initState) = "long" ∧
      (∀ j : Fin 4, j ≠ 2 → btnStatusOf j (setBtnStatus 2 "long" initState) ≠ "long")) ∧
    memOf 2 (slowTick 255 0 0 (setBtnStatus 2 "long" initState)) = (255, 0, 0) ∧
    memOf 0 (slowTick 255 0 0 (setBtnStatus 2 "long" initState)) =
      memOf 0 (setBtnStatus 2 "long" initState) :=
  ⟨⟨rfl, rfl, by decide⟩,
   (long_press_saves_slot 2 255 0 0 (setBtnStatus 2 "long" initState)
     rfl rfl (by decide)).1,
   (long_press_saves_slot 2 255 0 0 (setBtnStatus 2 "long" initState)
     rfl rfl (by decide)).2.2.2.2.1 0 (by decide)⟩

/-- Consuming a latched short on button 1 gives the same final state as
having started that button at `"waiting"`. -/
theorem shorts_chain_btn1 (X : LoopState) (h : X.btn1_status = "short") :
    applyShort4 (applyShort3 (applyShort2 (applyShort1 X))) =
      applyShort4 (applyShort3 (applyShort2 (applyShort1
        { X with btn1_status := "waiting" }))) := by
  obtain ⟨mo, m1, m2, m3, m4, keep, b1, b2, b3, b4, dr, dg, db, dh, bc, c1, c2, c3, c4, px⟩ := X
  replace h : b1 = "short" := h
  subst h
  by_cases s2 : b2 = "short" <;> by_cases s3 : b3 = "short" <;> by_cases s4 : b4 = "short" <;>
    simp [applyShort1, applyShort2, applyShort3, applyShort4, s2, s3, s4]

/-- Consuming a latched short on button 2 gives the same final state as
having started that button at `"waiting"`. -/
theorem shorts_chain_btn2 (X : LoopState) (h : X.btn2_status = "short") :
    applyShort4 (applyShort3 (applyShort2 (applyShort1 X))) =
      applyShort4 (applyShort3 (applyShort2 (applyShort1
        { X with btn2_status := "waiting" }))) := by
  obtain ⟨mo, m1, m2, m3, m4, keep, b1, b2, b3, b4, dr, dg, db, dh, bc, c1, c2, c3, c4, px⟩ := X
  replace h : b2 = "short" := h
  subst h
  by_cases s1 : b1 = "short" <;> by_cases s3 : b3 = "short" <;> by_cases s4 : b4 = "short" <;>
    simp [applyShort1, applyShort2, applyShort3, applyShort4, s1, s3, s4]

/-- Consuming a latched short on button 3 gives the same final state as
having started that button at `"waiting"`. -/
theorem shorts_chain_btn3 (X : LoopState) (h : X.btn3_status = "short") :
    applyShort4 (applyShort3 (applyShort2 (applyShort1 X))) =
      applyShort4 (applyShort3 (applyShort2 (applyShort1
        { X with btn3_status := "waiting" }))) := by
  obtain ⟨mo, m1, m2, m3, m4, keep, b1, b2, b3, b4, dr, dg, db, dh, bc, c1, c2, c3, c4, px⟩ := X
  replace h : b3 = "short" := h
  subst h
  by_cases s1 : b1 = "short" <;> by_cases s2 : b2 = "short" <;> by_cases s4 : b4 = "short" <;>
    simp [applyShort1, applyShort2, applyShort3, applyShort4, s1, s2, s4]

/-- Consuming a latched short on button 4 gives the same final state as
having started that button at `"waiting"`. -/
theorem shorts_chain_btn4 (X : LoopState) (h : X.btn4_status = "short") :
    applyShort4 (applyShort3 (applyShort2 (applyShort1 X))) =
      applyShort4 (applyShort3 (applyShort2 (applyShort1
        { X with btn4_status := "waiting" }))) := by
  obtain ⟨mo, m1, m2, m3, m4, keep, b1, b2, b3, b4, dr, dg, db, dh, bc, c1, c2, c3, c4, px⟩ := X
  replace h : b4 = "short" := h
  subst h
  by_cases s1 : b1 = "short" <;> by_cases s2 : b2 = "short" <;> by_cases s3 : b3 = "short" <;>
    simp [applyShort1, applyShort2, applyShort3, applyShort4, s1, s2, s3]

/-- Writing a button status never changes the mode. -/
theorem setBtnStatus_mode (k : Fin 4) (st : String) (s : LoopState) :
    (setBtnStatus k st s).mode = s.mode := by
  fin_cases k <;> rfl

/-- C7: a latched `"short"` classification consumed at a slow tick in
`show_knob_value` mode (with no button latched long) is a no-op apart
from the diagnostic print: the tick produces exactly the state the same
tick would produce had the button been `"waiting"`, the button's
classification resets to `"waiting"`, and the mode and all four memory
slots are unchanged. -/
theorem short_press_is_noop (k : Fin 4) (r g b : ℕ) (s : LoopState)
    (hmode : s.mode = "show_knob_value")
    (hk : btnStatusOf k s = "short")
    (hnolong : ∀ j : Fin 4, btnStatusOf j s ≠ "long") :
    slowTick r g b s = slowTick r g b (setBtnStatus k "waiting" s) ∧
    btnStatusOf k (slowTick r g b s) = "waiting" ∧
    (slowTick r g b s).mode = s.mode ∧
    (∀ j : Fin 4, memOf j (slowTick r g b s) = memOf j s) := by
  have h1 : s.btn1_status ≠ "long" := by simpa [btnStatusOf] using hnolong 0
  have h2 : s.btn2_status ≠ "long" := by simpa [btnStatusOf] using hnolong 1
  have h3 : s.btn3_status ≠ "long" := by simpa [btnStatusOf] using hnolong 2
  have h4 : s.btn4_status ≠ "long" := by simpa [btnStatusOf] using hnolong 3
  have hmode2 : (setBtnStatus k "waiting" s).mode = "show_knob_value" := by
    rw [setBtnStatus_mode]; exact hmode
  refine ⟨?_, ?_, ?_, ?_⟩
  · rw [slowTick_unfold r g b s hmode, slowTick_unfold r g b _ hmode2]
    fin_cases k
    · simp only [btnStatusOf] at hk
      simp only [setBtnStatus]
      simp [applyLong1_skip, applyLong2_skip, applyLong3_skip, applyLong4_skip,
        liveUpdate, h1, h2, h3, h4]
      exact shorts_chain_btn1 _ hk
    · simp only [btnStatusOf] at hk
      simp only [setBtnStatus]
      simp [applyLong1_skip, applyLong2_skip, applyLong3_skip, applyLong4_skip,
        liveUpdate, h1, h2, h3, h4]
      exact shorts_chain_btn2 _ hk
    · simp only [btnStatusOf] at hk
      simp only [setBtnStatus]
      simp [applyLong1_skip, applyLong2_skip, applyLong3_skip, applyLong4_skip,
        liveUpdate, h1, h2, h3, h4]
      exact shorts_chain_btn3 _ hk
    · simp only [btnStatusOf] at hk
      simp only [setBtnStatus]
      simp [applyLong1_skip, applyLong2_skip, applyLong3_skip, applyLong4_skip,
        liveUpdate, h1, h2, h3, h4]
      exact shorts_chain_btn4 _ hk
  · rw [slowTick_unfold r g b s hmode]
    fin_cases k <;>
      simp only [btnStatusOf] at hk <;>
      simp [btnStatusOf, applyShort1_status, applyShort2_status, applyShort3_status,
        applyShort4_status, applyShort1_preserved, applyShort2_preserved,
        applyShort3_preserved, applyShort4_preserved, applyLong1_skip, applyLong2_skip,
        applyLong3_skip, applyLong4_skip, liveUpdate, hk, h1, h2, h3, h4]
  · rw [slowTick_unfold r g b s hmode]
    simp [applyShort1_preserved, applyShort2_preserved, applyShort3_preserved,
      applyShort4_preserved, applyLong1_preserved, applyLong2_preserved,
      applyLong3_preserved, applyLong4_preserved, liveUpdate]
  · intro j
    rw [slowTick_unfold r g b s hmode]
    fin_cases j <;>
      simp [memOf, applyShort1_preserved, applyShort2_preserved, applyShort3_preserved,
        applyShort4_preserved, applyLong1_skip, applyLong2_skip, applyLong3_skip,
        applyLong4_skip, liveUpdate, h1, h2, h3, h4]

/-- C7 witness: with button 1 latched short and knobs at `(5, 6, 7)`,
the tick resets the classification and behaves as if the button had been
waiting. -/
theorem short_press_is_noop_witness :
    ((setBtnStatus 0 "short" initState).mode = "show_knob_value" ∧
      btnStatusOf 0 (setBtnStatus 0 "short" initState) = "short" ∧
      (∀ j : Fin 4, btnStatusOf j (setBtnStatus 0 "short" initState) ≠ "long")) ∧
    btnStatusOf 0 (slowTick 5 6 7 (setBtnStatus 0 "short" initState)) = "waiting" ∧
    memOf 0 (slowTick 5 6 7 (setBtnStatus 0 "short" initState)) =
      memOf 0 (setBtnStatus 0 "short" initState) :=
  ⟨⟨rfl, rfl, by decide⟩,
   (short_press_is_noop 0 5 6 7 (setBtnStatus 0 "short" initState)
     rfl rfl (by decide)).2.1,
   (short_press_is_noop 0 5 6 7 (setBtnStatus 0 "short" initState)
     rfl rfl (by decide)).2.2.2 0⟩

end NeopixelColorFinder
